import Mathlib

/-!
Verification of the fluidsynth2 binding layer's lifecycle and
reference-counting discipline.

The Go source is shallowly embedded: each handle type becomes a structure
holding the fields the Go struct holds (the opaque C pointer becomes
`Option Nat`, `none` modelling C nil), and each method becomes a pure
function from the handle state (plus the relevant foreign inputs, passed
explicitly) to its result and the updated state.  Foreign calls are made
visible either through returned state or through an explicit flag in the
result, so that "no foreign call is made" is a provable statement.
-/

namespace Fluidsynth2

/-- Errors produced by the binding, one constructor per distinct
`fmt.Errorf` site among the modelled operations. -/
inductive Err where
  | creationFailed (what : String)
  | stillReferenced (count : Int)
  | settingsClosed
  | settingsPtrNil
  | settingsNil
  | synthClosed
  | synthPtrNil
  | synthNil
  | emptyBuffer
  | noFrames
  | playerClosed
  | playerPtrNil
  | emptyMidiData
  | invalidTempoType (t : Int)
  | setTempoFailed
  | unknownStatus (code : Int)
  | fluidFailed
  deriving Repr, DecidableEq

/-- Process-wide interner state from `internal.go`: the global
`settingsRefCount` liveness counter and whether the `settingNames` cache is
currently allocated (`cleanupSettingNames` frees it and sets it to nil). -/
structure Global where
  settingsRefCount : Int
  settingNamesAlive : Bool
  deriving Repr, DecidableEq

/-- `Settings` handle state (settings.go): foreign pointer, closed flag and
the atomic dependency counter of child Synths.  The mutex only serialises
`Close`, so it has no state here. -/
structure Settings where
  ptr : Option Nat
  closed : Bool
  refCount : Int
  deriving Repr, DecidableEq

/-- `NewSettings`: `alloc` is the pointer returned by
`C.new_fluid_settings` (`none` = allocator returned nil).  On success the
handle starts open with dependency counter 0 and the global liveness count
is incremented. -/
def NewSettings (alloc : Option Nat) (g : Global) : Except Err Settings × Global :=
  match alloc with
  | none => (.error (.creationFailed "settings"), g)
  | some p =>
      (.ok { ptr := some p, closed := false, refCount := 0 },
       { g with settingsRefCount := g.settingsRefCount + 1 })

/-- `Settings.incRef`: atomic increment of the dependency counter. -/
def Settings.incRef (s : Settings) : Settings :=
  { s with refCount := s.refCount + 1 }

/-- `Settings.decRef`: atomic decrement of the dependency counter. -/
def Settings.decRef (s : Settings) : Settings :=
  { s with refCount := s.refCount - 1 }

/-- `Settings.validate`: closed check first, then nil-pointer check. -/
def Settings.validate (s : Settings) : Except Err Unit :=
  if s.closed then .error .settingsClosed
  else if s.ptr = none then .error .settingsPtrNil
  else .ok ()

/-- `Settings.Close` under the handle's mutex: no-op when already closed;
`StillReferenced` error when the dependency counter is positive; otherwise
mark closed, free the foreign object (pointer becomes nil), decrement the
global liveness count and flush the interner when that count reaches 0. -/
def Settings.Close (s : Settings) (g : Global) : Except Err Unit × Settings × Global :=
  if s.closed then (.ok (), s, g)
  else if s.refCount > 0 then (.error (.stillReferenced s.refCount), s, g)
  else
    (.ok (), { s with closed := true, ptr := none },
     if g.settingsRefCount - 1 = 0 then
       { settingsRefCount := g.settingsRefCount - 1, settingNamesAlive := false }
     else { g with settingsRefCount := g.settingsRefCount - 1 })

/-- `Synth` handle state (synth.go): foreign pointer, whether the
`settings` field still holds the Settings reference, and the closed flag. -/
structure Synth where
  ptr : Option Nat
  hasSettings : Bool
  closed : Bool
  deriving Repr, DecidableEq

/-- `NewSynth`: nil / closed / nil-pointer checks on the Settings argument
come before the foreign allocation; `alloc` is the pointer returned by
`C.new_fluid_synth` (`none` = allocator returned nil).  The result carries
the possibly-updated Settings and a flag recording whether a foreign synth
object was created. -/
def NewSynth (cfg? : Option Settings) (alloc : Option Nat) :
    Except Err Synth × Option Settings × Bool :=
  match cfg? with
  | none => (.error .settingsNil, none, false)
  | some cfg =>
      if cfg.closed then (.error .settingsClosed, some cfg, false)
      else if cfg.ptr = none then (.error .settingsPtrNil, some cfg, false)
      else
        match alloc with
        | none => (.error (.creationFailed "synth"), some cfg, false)
        | some p =>
            (.ok { ptr := some p, hasSettings := true, closed := false },
             some cfg.incRef, true)

/-- `Synth.Close` under the handle's mutex: no-op when already closed;
otherwise mark closed, free the foreign object, call the Settings'
`decRef` when the reference is still held, and release that reference.
Never fails. -/
def Synth.Close (s : Synth) (cfg : Settings) : Except Err Unit × Synth × Settings :=
  if s.closed then (.ok (), s, cfg)
  else
    (.ok (), { ptr := none, hasSettings := false, closed := true },
     if s.hasSettings then cfg.decRef else cfg)

/-- `Synth.validate`: closed check first, then nil-pointer check. -/
def Synth.validate (s : Synth) : Except Err Unit :=
  if s.closed then .error .synthClosed
  else if s.ptr = none then .error .synthPtrNil
  else .ok ()

/-- `FLUID_OK` status constant (internal.go). -/
def FLUID_OK : Int := 0

/-- `FLUID_FAILED` status constant (internal.go). -/
def FLUID_FAILED : Int := -1

/-- `fluidStatus` (internal.go): the failure sentinel maps to an error,
every other status to success. -/
def fluidStatus (i : Int) : Except Err Unit :=
  if i = FLUID_FAILED then .error .fluidFailed else .ok ()

/-- `Synth.WriteS16`: validate, reject empty buffers, compute the frame
count with Go's truncated integer division, reject a zero frame count,
otherwise perform the foreign write.  `.ok n` models the foreign call
writing `n` frames; every `.error` result means no foreign call was made
and nothing was written.  Only the buffer lengths influence control flow,
so buffers are lists of int16 sample values whose contents are unused. -/
def Synth.WriteS16 (s : Synth) (left right : List Int) (lstride rstride : Int) :
    Except Err Int :=
  match s.validate with
  | .error e => .error e
  | .ok _ =>
      if left.length = 0 ∨ right.length = 0 then .error .emptyBuffer
      else
        let n0 := Int.tdiv ((left.length : Int) + lstride - 1) lstride
        let rframes := Int.tdiv ((right.length : Int) + rstride - 1) rstride
        let nframes := if rframes < n0 then rframes else n0
        if nframes = 0 then .error .noFrames
        else .ok nframes

/-- `Synth.WriteFloat`: identical control flow to `WriteS16` over float32
buffers; sample values are irrelevant, so buffers are kept abstract as an
arbitrary element type. -/
def Synth.WriteFloat {α : Type} (s : Synth) (left right : List α)
    (lstride rstride : Int) : Except Err Int :=
  match s.validate with
  | .error e => .error e
  | .ok _ =>
      if left.length = 0 ∨ right.length = 0 then .error .emptyBuffer
      else
        let n0 := Int.tdiv ((left.length : Int) + lstride - 1) lstride
        let rframes := Int.tdiv ((right.length : Int) + rstride - 1) rstride
        let nframes := if rframes < n0 then rframes else n0
        if nframes = 0 then .error .noFrames
        else .ok nframes

/-- `Player` handle state (player.go). -/
structure Player where
  ptr : Option Nat
  hasSynth : Bool
  closed : Bool
  deriving Repr, DecidableEq

/-- `NewPlayer`: nil / closed / nil-pointer checks on the Synth argument
before the foreign allocation (`alloc` is the returned player pointer);
the flag records whether a foreign player object was created. -/
def NewPlayer (synth? : Option Synth) (alloc : Option Nat) :
    Except Err Player × Bool :=
  match synth? with
  | none => (.error .synthNil, false)
  | some sy =>
      if sy.closed then (.error .synthClosed, false)
      else if sy.ptr = none then (.error .synthPtrNil, false)
      else
        match alloc with
        | none => (.error (.creationFailed "player"), false)
        | some p => (.ok { ptr := some p, hasSynth := true, closed := false }, true)

/-- `Player.Close` under the handle's mutex: no-op when already closed;
otherwise mark closed, free the foreign player and release the synth
reference.  Never fails. -/
def Player.Close (p : Player) : Except Err Unit × Player :=
  if p.closed then (.ok (), p)
  else (.ok (), { ptr := none, hasSynth := false, closed := true })

/-- `Player.validate`: closed check first, then nil-pointer check. -/
def Player.validate (p : Player) : Except Err Unit :=
  if p.closed then .error .playerClosed
  else if p.ptr = none then .error .playerPtrNil
  else .ok ()

/-- `Player.AddMem`: validate, then the empty-data check, then the foreign
`fluid_player_add_mem` call whose status is `st`; the flag records whether
the foreign call was made.  Bytes are modelled as naturals. -/
def Player.AddMem (p : Player) (data : List Nat) (st : Int) :
    Except Err Unit × Bool :=
  match p.validate with
  | .error e => (.error e, false)
  | .ok _ =>
      if data.length = 0 then (.error .emptyMidiData, false)
      else (fluidStatus st, true)

/-- `TEMPO_INTERNAL` tempo mode constant (player.go). -/
def TEMPO_INTERNAL : Int := 0

/-- `TEMPO_EXTERNAL_BPM` tempo mode constant (player.go). -/
def TEMPO_EXTERNAL_BPM : Int := 1

/-- `TEMPO_EXTERNAL_MIDI` tempo mode constant (player.go). -/
def TEMPO_EXTERNAL_MIDI : Int := 2

/-- `Player.SetTempo`: validate, then range-check the tempo type against
the three defined modes, then forward to `fluid_player_set_tempo` whose
status is `st`; the flag records whether the foreign call was made.  The
`bpm` value does not influence control flow and is omitted. -/
def Player.SetTempo (p : Player) (t : Int) (st : Int) :
    Except Err Unit × Bool :=
  match p.validate with
  | .error e => (.error e, false)
  | .ok _ =>
      if t < TEMPO_INTERNAL ∨ t > TEMPO_EXTERNAL_MIDI then
        (.error (.invalidTempoType t), false)
      else if st = FLUID_FAILED then (.error .setTempoFailed, true)
      else (.ok (), true)

/-- Player status string constants (player.go). -/
def FLUID_PLAYER_READY : String := "READY"

/-- Status string for a playing player. -/
def FLUID_PLAYER_PLAYING : String := "PLAYING"

/-- Status string for a stopping player. -/
def FLUID_PLAYER_STOPPING : String := "STOPPING"

/-- Status string for a finished player. -/
def FLUID_PLAYER_DONE : String := "DONE"

/-- Foreign `fluid_player_status` enum value for READY, from the
fluidsynth header referenced by player.go as a C constant. -/
def C_FLUID_PLAYER_READY : Int := 0

/-- Foreign enum value for PLAYING. -/
def C_FLUID_PLAYER_PLAYING : Int := 1

/-- Foreign enum value for STOPPING. -/
def C_FLUID_PLAYER_STOPPING : Int := 2

/-- Foreign enum value for DONE. -/
def C_FLUID_PLAYER_DONE : Int := 3

/-- `Player.GetStatus`: validate, read the foreign status code, and map
the four documented codes to their states; any other code yields the
unknown-status error carrying the code. -/
def Player.GetStatus (p : Player) (code : Int) : Except Err String :=
  match p.validate with
  | .error e => .error e
  | .ok _ =>
      if code = C_FLUID_PLAYER_READY then .ok FLUID_PLAYER_READY
      else if code = C_FLUID_PLAYER_PLAYING then .ok FLUID_PLAYER_PLAYING
      else if code = C_FLUID_PLAYER_STOPPING then .ok FLUID_PLAYER_STOPPING
      else if code = C_FLUID_PLAYER_DONE then .ok FLUID_PLAYER_DONE
      else .error (.unknownStatus code)

/-- `AudioDriver` handle state (driver.go). -/
structure AudioDriver where
  ptr : Option Nat
  hasSettings : Bool
  hasSynth : Bool
  closed : Bool
  deriving Repr, DecidableEq

/-- `AudioDriver.Close`: no-op when already closed; otherwise mark closed,
free the foreign driver and drop both references.  Never fails. -/
def AudioDriver.Close (d : AudioDriver) : Except Err Unit × AudioDriver :=
  if d.closed then (.ok (), d)
  else (.ok (), { ptr := none, hasSettings := false, hasSynth := false,
                  closed := true })

/-- `FileRenderer` handle state (driver.go). -/
structure FileRenderer where
  ptr : Option Nat
  hasSynth : Bool
  closed : Bool
  deriving Repr, DecidableEq

/-- `FileRenderer.Close`: no-op when already closed; otherwise mark
closed, free the foreign renderer and drop the synth reference. -/
def FileRenderer.Close (r : FileRenderer) : Except Err Unit × FileRenderer :=
  if r.closed then (.ok (), r)
  else (.ok (), { ptr := none, hasSynth := false, closed := true })

/-- The pointer/closed invariant for a Settings handle: the foreign object
reference is non-nil exactly when the closed flag is false. -/
def Settings.Inv (s : Settings) : Prop := s.ptr.isSome = !s.closed

/-- The pointer/closed invariant for a Synth handle. -/
def Synth.Inv (s : Synth) : Prop := s.ptr.isSome = !s.closed

/-- C1: closing a Settings handle whose dependency counter is positive
returns the StillReferenced error carrying the exact count and changes
nothing: the handle state (closed flag false, foreign object still
allocated) and the global interner state are returned untouched, and
validation of the handle still succeeds afterwards, so operations on it and
its dependents keep working. -/
theorem settings_close_still_referenced
    (s : Settings) (g : Global) (p : Nat)
    (href : 0 < s.refCount) (hcl : s.closed = false) (hptr : s.ptr = some p) :
    Settings.Close s g = (.error (.stillReferenced s.refCount), s, g) ∧
    Settings.validate s = .ok () := by
  refine ⟨?_, ?_⟩
  · simp [Settings.Close, hcl, href]
  · simp [Settings.validate, hcl, hptr]

/-- Witness for C1 at a concrete handle with dependency counter 2. -/
theorem settings_close_still_referenced_witness :
    Settings.Close { ptr := some 1, closed := false, refCount := 2 }
        { settingsRefCount := 1, settingNamesAlive := true } =
      (.error (.stillReferenced 2),
       { ptr := some 1, closed := false, refCount := 2 },
       { settingsRefCount := 1, settingNamesAlive := true }) ∧
    Settings.validate { ptr := some 1, closed := false, refCount := 2 } = .ok () :=
  settings_close_still_referenced _ _ 1 (by decide) rfl rfl

/-- C4: the pointer/closed invariant holds for every Settings and Synth
handle: it is established by the constructors and preserved by every
state-mutating operation (the close operations; getters/setters do not
touch handle state), and on any non-closed handle satisfying it the
validate() nil-pointer branch is unreachable — validate succeeds. -/
theorem ptr_closed_invariant :
    (∀ p g cfg g', NewSettings (some p) g = (.ok cfg, g') → cfg.Inv) ∧
    (∀ (s : Settings) g, s.Inv → ((Settings.Close s g).2.1).Inv) ∧
    (∀ cfg alloc sy rest, NewSynth (some cfg) alloc = (.ok sy, rest) → sy.Inv) ∧
    (∀ cfg alloc c, Settings.Inv cfg →
        (NewSynth (some cfg) alloc).2.1 = some c → c.Inv) ∧
    (∀ sy cfg, Synth.Inv sy → ((Synth.Close sy cfg).2.1).Inv) ∧
    (∀ sy cfg, Settings.Inv cfg → ((Synth.Close sy cfg).2.2).Inv) ∧
    (∀ s : Settings, s.Inv → s.closed = false → s.validate = .ok ()) ∧
    (∀ s : Synth, s.Inv → s.closed = false → s.validate = .ok ()) := by
  refine ⟨?_, ?_, ?_, ?_, ?_, ?_, ?_, ?_⟩
  · intro p g cfg g' h
    simp [NewSettings] at h
    simp [Settings.Inv, ← h.1]
  · intro s g hs
    unfold Settings.Close
    split_ifs with h1 h2 <;> simp_all [Settings.Inv]
  · intro cfg alloc sy rest h
    by_cases h1 : cfg.closed <;> by_cases h2 : cfg.ptr = none <;>
      cases alloc <;> simp [NewSynth, h1, h2] at h
    simp [Synth.Inv, ← h.1]
  · intro cfg alloc c hinv h
    by_cases h1 : cfg.closed <;> by_cases h2 : cfg.ptr = none <;>
      cases alloc <;> simp [NewSynth, h1, h2] at h <;>
      (subst h; simp_all [Settings.Inv, Settings.incRef])
  · intro sy cfg hs
    unfold Synth.Close
    split_ifs with h1 <;> simp_all [Synth.Inv]
  · intro sy cfg hc
    unfold Synth.Close
    split_ifs with h1 <;> simp_all [Settings.Inv, Settings.decRef]
  · intro s hinv hcl
    have : s.ptr.isSome = true := by simp [Settings.Inv, hcl] at hinv; simp [hinv]
    cases hp : s.ptr with
    | none => rw [hp] at this; simp at this
    | some p => simp [Settings.validate, hcl, hp]
  · intro s hinv hcl
    have : s.ptr.isSome = true := by simp [Synth.Inv, hcl] at hinv; simp [hinv]
    cases hp : s.ptr with
    | none => rw [hp] at this; simp at this
    | some p => simp [Synth.validate, hcl, hp]

/-- Witness for C4 at concrete handles: invariant preservation through a
Settings close and validate success on a concrete open Synth. -/
theorem ptr_closed_invariant_witness :
    Settings.Inv ((Settings.Close { ptr := some 1, closed := false, refCount := 0 }
        { settingsRefCount := 1, settingNamesAlive := true }).2.1) ∧
    Synth.validate { ptr := some 2, hasSettings := true, closed := false } = .ok () :=
  ⟨ptr_closed_invariant.2.1 { ptr := some 1, closed := false, refCount := 0 }
      { settingsRefCount := 1, settingNamesAlive := true } rfl,
   ptr_closed_invariant.2.2.2.2.2.2.2
      { ptr := some 2, hasSettings := true, closed := false } rfl rfl⟩

/-- C6: NewSynth with a nil Settings, or with a closed Settings, fails with
the corresponding invalid-argument error, creates no foreign synth object
(flag false) and returns the Settings unchanged (counter untouched); on
success the synth stores the Settings reference and the returned Settings
is the input with dependency counter incremented by exactly one. -/
theorem newsynth_validation (cfg : Settings) (alloc : Option Nat) :
    NewSynth none alloc = (.error .settingsNil, none, false) ∧
    (cfg.closed = true →
      NewSynth (some cfg) alloc = (.error .settingsClosed, some cfg, false)) ∧
    (∀ sy cfg' called, NewSynth (some cfg) alloc = (.ok sy, cfg', called) →
      sy.hasSettings = true ∧
      cfg' = some { cfg with refCount := cfg.refCount + 1 } ∧ called = true) := by
  refine ⟨rfl, ?_, ?_⟩
  · intro h
    simp [NewSynth, h]
  · intro sy cfg' called h
    by_cases h1 : cfg.closed <;> by_cases h2 : cfg.ptr = none <;>
      cases alloc <;> simp [NewSynth, h1, h2] at h
    obtain ⟨hsy, hcfg, hcalled⟩ := h
    subst hsy hcfg hcalled
    exact ⟨rfl, rfl, rfl⟩

/-- Witness for C6: nil and closed Settings rejected at concrete inputs. -/
theorem newsynth_validation_witness :
    NewSynth none (some 5) = (.error .settingsNil, none, false) ∧
    NewSynth (some { ptr := some 1, closed := true, refCount := 0 }) (some 5) =
      (.error .settingsClosed,
       some { ptr := some 1, closed := true, refCount := 0 }, false) :=
  ⟨(newsynth_validation { ptr := some 1, closed := true, refCount := 0 } (some 5)).1,
   (newsynth_validation { ptr := some 1, closed := true, refCount := 0 }
      (some 5)).2.1 rfl⟩

/-- C3: for every handle kind (Settings, Synth, Player, AudioDriver,
FileRenderer), a second Close after a successful first Close returns
success again and changes no state: double-close is a no-op, never an
error.  For Synth, Player, AudioDriver and FileRenderer the first Close
always succeeds as well. -/
theorem close_idempotent :
    (∀ (s : Settings) g r s1 g1, Settings.Close s g = (.ok r, s1, g1) →
       Settings.Close s1 g1 = (.ok (), s1, g1)) ∧
    (∀ (sy : Synth) cfg,
       (Synth.Close sy cfg).1 = .ok () ∧
       Synth.Close (Synth.Close sy cfg).2.1 (Synth.Close sy cfg).2.2 =
         (.ok (), (Synth.Close sy cfg).2.1, (Synth.Close sy cfg).2.2)) ∧
    (∀ (p : Player),
       (Player.Close p).1 = .ok () ∧
       Player.Close (Player.Close p).2 = (.ok (), (Player.Close p).2)) ∧
    (∀ (d : AudioDriver),
       (AudioDriver.Close d).1 = .ok () ∧
       AudioDriver.Close (AudioDriver.Close d).2 =
         (.ok (), (AudioDriver.Close d).2)) ∧
    (∀ (r : FileRenderer),
       (FileRenderer.Close r).1 = .ok () ∧
       FileRenderer.Close (FileRenderer.Close r).2 =
         (.ok (), (FileRenderer.Close r).2)) := by
  refine ⟨?_, ?_, ?_, ?_, ?_⟩
  · intro s g r s1 g1 h
    unfold Settings.Close at h
    split_ifs at h with h1 h2 h3
    · simp only [Prod.mk.injEq, Except.ok.injEq] at h
      obtain ⟨-, hs, hg⟩ := h
      subst hs; subst hg
      simp [Settings.Close, h1]
    · simp at h
    · simp only [Prod.mk.injEq, Except.ok.injEq] at h
      obtain ⟨-, hs, hg⟩ := h
      subst hs; subst hg
      simp [Settings.Close]
    · simp only [Prod.mk.injEq, Except.ok.injEq] at h
      obtain ⟨-, hs, hg⟩ := h
      subst hs; subst hg
      simp [Settings.Close]
  · intro sy cfg
    by_cases h : sy.closed <;> simp [Synth.Close, h]
  · intro p
    by_cases h : p.closed <;> simp [Player.Close, h]
  · intro d
    by_cases h : d.closed <;> simp [AudioDriver.Close, h]
  · intro r
    by_cases h : r.closed <;> simp [FileRenderer.Close, h]

/-- Witness for C3: double-close of a concrete Settings handle after a
successful first close. -/
theorem close_idempotent_witness :
    Settings.Close { ptr := none, closed := true, refCount := 0 }
        { settingsRefCount := 0, settingNamesAlive := false } =
      (.ok (), { ptr := none, closed := true, refCount := 0 },
       { settingsRefCount := 0, settingNamesAlive := false }) :=
  close_idempotent.1 { ptr := some 1, closed := false, refCount := 0 }
    { settingsRefCount := 1, settingNamesAlive := true } () _ _ rfl

/-- C7: SetTempo on an open Player with a tempo mode outside the three
defined modes (internal, external-BPM, external-MIDI) fails with the
invalid-tempo error carrying the mode and makes no foreign call (the
wrapper holds no mutable state, so nothing changes); with a mode in range
the call is forwarded to the foreign engine. -/
theorem settempo_range_check (p : Player) (t st : Int)
    (hv : p.validate = .ok ()) :
    (t < TEMPO_INTERNAL ∨ t > TEMPO_EXTERNAL_MIDI →
       Player.SetTempo p t st = (.error (.invalidTempoType t), false)) ∧
    (TEMPO_INTERNAL ≤ t → t ≤ TEMPO_EXTERNAL_MIDI →
       (Player.SetTempo p t st).2 = true) := by
  constructor
  · intro h
    simp [Player.SetTempo, hv, h]
  · intro h1 h2
    have h3 : ¬(t < TEMPO_INTERNAL ∨ t > TEMPO_EXTERNAL_MIDI) := by
      push_neg
      exact ⟨h1, h2⟩
    simp only [Player.SetTempo, hv, h3, if_false]
    split_ifs <;> rfl

/-- Witness for C7: tempo mode 5 rejected, mode 1 forwarded, on a
concrete open player. -/
theorem settempo_range_check_witness :
    Player.SetTempo { ptr := some 1, hasSynth := true, closed := false } 5 0 =
      (.error (.invalidTempoType 5), false) ∧
    (Player.SetTempo { ptr := some 1, hasSynth := true, closed := false }
       1 0).2 = true :=
  ⟨(settempo_range_check { ptr := some 1, hasSynth := true, closed := false }
      5 0 rfl).1 (.inr (by decide)),
   (settempo_range_check { ptr := some 1, hasSynth := true, closed := false }
      1 0 rfl).2 (by decide) (by decide)⟩

/-- C8: GetStatus on an open Player maps each of the four documented
foreign status codes to its state string, and every other code fails with
the unknown-status error reporting that code. -/
theorem getstatus_mapping (p : Player) (code : Int)
    (hv : p.validate = .ok ()) :
    (code = C_FLUID_PLAYER_READY →
       Player.GetStatus p code = .ok FLUID_PLAYER_READY) ∧
    (code = C_FLUID_PLAYER_PLAYING →
       Player.GetStatus p code = .ok FLUID_PLAYER_PLAYING) ∧
    (code = C_FLUID_PLAYER_STOPPING →
       Player.GetStatus p code = .ok FLUID_PLAYER_STOPPING) ∧
    (code = C_FLUID_PLAYER_DONE →
       Player.GetStatus p code = .ok FLUID_PLAYER_DONE) ∧
    (code ≠ C_FLUID_PLAYER_READY → code ≠ C_FLUID_PLAYER_PLAYING →
     code ≠ C_FLUID_PLAYER_STOPPING → code ≠ C_FLUID_PLAYER_DONE →
       Player.GetStatus p code = .error (.unknownStatus code)) := by
  refine ⟨?_, ?_, ?_, ?_, ?_⟩ <;> intro h
  · simp [Player.GetStatus, hv, h]
  · simp [Player.GetStatus, hv, h, C_FLUID_PLAYER_PLAYING,
      C_FLUID_PLAYER_READY]
  · simp [Player.GetStatus, hv, h, C_FLUID_PLAYER_STOPPING,
      C_FLUID_PLAYER_READY, C_FLUID_PLAYER_PLAYING]
  · simp [Player.GetStatus, hv, h, C_FLUID_PLAYER_DONE,
      C_FLUID_PLAYER_READY, C_FLUID_PLAYER_PLAYING, C_FLUID_PLAYER_STOPPING]
  · intro h2 h3 h4
    simp [Player.GetStatus, hv, h, h2, h3, h4]

/-- Witness for C8: code 2 maps to STOPPING and code 7 to the
unknown-status error on a concrete open player. -/
theorem getstatus_mapping_witness :
    Player.GetStatus { ptr := some 1, hasSynth := true, closed := false } 2 =
      .ok FLUID_PLAYER_STOPPING ∧
    Player.GetStatus { ptr := some 1, hasSynth := true, closed := false } 7 =
      .error (.unknownStatus 7) :=
  ⟨(getstatus_mapping { ptr := some 1, hasSynth := true, closed := false }
      2 rfl).2.2.1 rfl,
   (getstatus_mapping { ptr := some 1, hasSynth := true, closed := false }
      7 rfl).2.2.2.2 (by decide) (by decide) (by decide) (by decide)⟩

/-- C10: the closed-handle check precedes argument validation: on a closed
Player, SetTempo with any (in particular out-of-range) mode and AddMem
with empty data return the player-closed error rather than the argument
error, and on a closed Synth WriteS16 with empty buffers returns the
synth-closed error rather than the empty-buffer error; in all three cases
the foreign-call flag is false / no frames are written. -/
theorem closed_check_first (p : Player) (sy : Synth) (t st ls rs : Int)
    (hp : p.closed = true) (hs : sy.closed = true) :
    Player.SetTempo p t st = (.error .playerClosed, false) ∧
    Player.AddMem p [] st = (.error .playerClosed, false) ∧
    Synth.WriteS16 sy [] [] ls rs = .error .synthClosed := by
  refine ⟨?_, ?_, ?_⟩
  · simp [Player.SetTempo, Player.validate, hp]
  · simp [Player.AddMem, Player.validate, hp]
  · simp [Synth.WriteS16, Synth.validate, hs]

/-- Witness for C10 at concrete closed handles. -/
theorem closed_check_first_witness :
    Player.SetTempo { ptr := none, hasSynth := false, closed := true } 9 0 =
      (.error .playerClosed, false) ∧
    Player.AddMem { ptr := none, hasSynth := false, closed := true } [] 0 =
      (.error .playerClosed, false) ∧
    Synth.WriteS16 { ptr := none, hasSettings := false, closed := true }
        [] [] 2 2 = .error .synthClosed :=
  closed_check_first { ptr := none, hasSynth := false, closed := true }
    { ptr := none, hasSettings := false, closed := true } 9 0 2 2 rfl rfl

/-- Go's `(n + s - 1) / s` with truncated integer division equals the
natural-number ceiling division of the (positive) length by the stride. -/
theorem tdiv_add_pred_eq_ceilDiv (n m : Nat) (hn : 1 ≤ n) :
    Int.tdiv ((n : Int) + (m : Int) - 1) (m : Int) = ((n ⌈/⌉ m : Nat) : Int) := by
  have h1 : (n : Int) + (m : Int) - 1 = ((n + m - 1 : Nat) : Int) := by
    have h2 : 1 ≤ n + m := Nat.le_add_right_of_le hn
    push_cast [h2]
    ring
  rw [h1, Nat.ceilDiv_eq_add_pred_div]
  rfl

/-- Ceiling division of a positive numerator by a positive denominator is
at least 1. -/
theorem one_le_ceilDiv (a b : Nat) (ha : 1 ≤ a) (hb : 0 < b) : 1 ≤ a ⌈/⌉ b := by
  rw [Nat.ceilDiv_eq_add_pred_div, Nat.one_le_div_iff hb]
  omega

/-- The frame-count computation of `WriteS16`/`WriteFloat` (truncated
divisions and the smaller-of-the-two branch) equals the minimum of the two
ceiling divisions, and that minimum is positive, whenever both buffers are
non-empty and both strides are positive. -/
theorem go_min_frames (n m : Nat) (ls rs : Int) (hn : 1 ≤ n) (hm : 1 ≤ m)
    (hls : 0 < ls) (hrs : 0 < rs) :
    (if Int.tdiv ((m : Int) + rs - 1) rs < Int.tdiv ((n : Int) + ls - 1) ls
     then Int.tdiv ((m : Int) + rs - 1) rs
     else Int.tdiv ((n : Int) + ls - 1) ls)
      = ((min (n ⌈/⌉ ls.toNat) (m ⌈/⌉ rs.toNat) : Nat) : Int) ∧
    1 ≤ min (n ⌈/⌉ ls.toNat) (m ⌈/⌉ rs.toNat) := by
  obtain ⟨L, hL, hL1⟩ : ∃ L : ℕ, ls = (L : Int) ∧ 1 ≤ L :=
    ⟨ls.toNat, (Int.toNat_of_nonneg hls.le).symm, by omega⟩
  obtain ⟨R, hR, hR1⟩ : ∃ R : ℕ, rs = (R : Int) ∧ 1 ≤ R :=
    ⟨rs.toNat, (Int.toNat_of_nonneg hrs.le).symm, by omega⟩
  subst hL; subst hR
  rw [tdiv_add_pred_eq_ceilDiv n L hn, tdiv_add_pred_eq_ceilDiv m R hm]
  simp only [Int.toNat_natCast]
  refine ⟨?_, le_min (one_le_ceilDiv n L hn (by omega))
    (one_le_ceilDiv m R hm (by omega))⟩
  split_ifs with hc <;> omega

/-- C5: on an open Synth, WriteS16 and WriteFloat with positive strides
and non-empty buffers write exactly the minimum of the ceiling divisions
of the two buffer lengths by their strides; two 8-element buffers with
strides 2 give exactly 4 frames; an empty buffer yields the empty-buffer
error and a zero computed frame count yields the no-frames error, in both
error cases without any foreign write (no frames are produced). -/
theorem write_frame_count (sy : Synth) (lstride rstride : Int)
    (hv : sy.validate = .ok ()) :
    (∀ (left right : List Int), left = [] ∨ right = [] →
       Synth.WriteS16 sy left right lstride rstride = .error .emptyBuffer) ∧
    (∀ (left right : List Int), 0 < lstride → 0 < rstride →
       left ≠ [] → right ≠ [] →
       Synth.WriteS16 sy left right lstride rstride =
         .ok ((min (left.length ⌈/⌉ lstride.toNat)
                   (right.length ⌈/⌉ rstride.toNat) : Nat) : Int)) ∧
    (∀ (left right : List Int), left.length = 8 → right.length = 8 →
       lstride = 2 → rstride = 2 →
       Synth.WriteS16 sy left right lstride rstride = .ok 4) ∧
    (∀ (left right : List Int), lstride ≠ 0 → rstride ≠ 0 →
       left ≠ [] → right ≠ [] →
       (if Int.tdiv ((right.length : Int) + rstride - 1) rstride <
           Int.tdiv ((left.length : Int) + lstride - 1) lstride
        then Int.tdiv ((right.length : Int) + rstride - 1) rstride
        else Int.tdiv ((left.length : Int) + lstride - 1) lstride) = 0 →
       Synth.WriteS16 sy left right lstride rstride = .error .noFrames) ∧
    (∀ (α : Type) (left right : List α), left = [] ∨ right = [] →
       Synth.WriteFloat sy left right lstride rstride = .error .emptyBuffer) ∧
    (∀ (α : Type) (left right : List α), 0 < lstride → 0 < rstride →
       left ≠ [] → right ≠ [] →
       Synth.WriteFloat sy left right lstride rstride =
         .ok ((min (left.length ⌈/⌉ lstride.toNat)
                   (right.length ⌈/⌉ rstride.toNat) : Nat) : Int)) := by
  have hokS : ∀ (left right : List Int), 0 < lstride → 0 < rstride →
      left ≠ [] → right ≠ [] →
      Synth.WriteS16 sy left right lstride rstride =
        .ok ((min (left.length ⌈/⌉ lstride.toNat)
                  (right.length ⌈/⌉ rstride.toNat) : Nat) : Int) := by
    intro left right hls hrs hl hr
    have hn : 1 ≤ left.length := List.length_pos.mpr hl
    have hm : 1 ≤ right.length := List.length_pos.mpr hr
    obtain ⟨heq, hpos⟩ :=
      go_min_frames left.length right.length lstride rstride hn hm hls hrs
    have hne : ¬(left.length = 0 ∨ right.length = 0) := by omega
    simp only [Synth.WriteS16, hv]
    rw [if_neg hne, heq]
    have hz : ¬((min (left.length ⌈/⌉ lstride.toNat)
        (right.length ⌈/⌉ rstride.toNat) : Nat) : Int) = 0 := by omega
    rw [if_neg hz]
  have hokF : ∀ (α : Type) (left right : List α), 0 < lstride → 0 < rstride →
      left ≠ [] → right ≠ [] →
      Synth.WriteFloat sy left right lstride rstride =
        .ok ((min (left.length ⌈/⌉ lstride.toNat)
                  (right.length ⌈/⌉ rstride.toNat) : Nat) : Int) := by
    intro α left right hls hrs hl hr
    have hn : 1 ≤ left.length := List.length_pos.mpr hl
    have hm : 1 ≤ right.length := List.length_pos.mpr hr
    obtain ⟨heq, hpos⟩ :=
      go_min_frames left.length right.length lstride rstride hn hm hls hrs
    have hne : ¬(left.length = 0 ∨ right.length = 0) := by omega
    simp only [Synth.WriteFloat, hv]
    rw [if_neg hne, heq]
    have hz : ¬((min (left.length ⌈/⌉ lstride.toNat)
        (right.length ⌈/⌉ rstride.toNat) : Nat) : Int) = 0 := by omega
    rw [if_neg hz]
  refine ⟨?_, hokS, ?_, ?_, ?_, hokF⟩
  · intro left right h
    rcases h with h | h <;> (subst h; simp [Synth.WriteS16, hv])
  · intro left right h8l h8r hls hrs
    subst hls; subst hrs
    have hl : left ≠ [] := by intro h; subst h; simp at h8l
    have hr : right ≠ [] := by intro h; subst h; simp at h8r
    rw [hokS left right (by decide) (by decide) hl hr, h8l, h8r]
    rfl
  · intro left right hls0 hrs0 hl hr h0
    have hn : 1 ≤ left.length := List.length_pos.mpr hl
    have hm : 1 ≤ right.length := List.length_pos.mpr hr
    have hne : ¬(left.length = 0 ∨ right.length = 0) := by omega
    simp only [Synth.WriteS16, hv]
    rw [if_neg hne, h0]
    simp
  · intro α left right h
    rcases h with h | h <;> (subst h; simp [Synth.WriteFloat, hv])

/-- Witness for C5: concrete 8-element buffers with strides 2 write 4
frames, and an empty left buffer is rejected, on a concrete open Synth. -/
theorem write_frame_count_witness :
    Synth.WriteS16 { ptr := some 1, hasSettings := true, closed := false }
        (List.replicate 8 0) (List.replicate 8 0) 2 2 = .ok 4 ∧
    Synth.WriteS16 { ptr := some 1, hasSettings := true, closed := false }
        [] (List.replicate 8 0) 2 2 = .error .emptyBuffer :=
  ⟨(write_frame_count { ptr := some 1, hasSettings := true, closed := false }
      2 2 rfl).2.2.1 (List.replicate 8 0) (List.replicate 8 0)
      (by simp) (by simp) rfl rfl,
   (write_frame_count { ptr := some 1, hasSettings := true, closed := false }
      2 2 rfl).1 [] (List.replicate 8 0) (Or.inl rfl)⟩

/-- Create `n` Synths in sequence from one Settings handle via `NewSynth`,
the step for `n+1` using foreign pointer `n`; returns the created synths
and the updated Settings.  The fallback branch is unreachable when the
Settings handle is open (proved in the C2 theorem's development). -/
def newSynthN : Nat → Settings → List Synth × Settings
  | 0, cfg => ([], cfg)
  | n + 1, cfg =>
      match NewSynth (some cfg) (some n) with
      | (.ok sy, some cfg', _) =>
          let rest := newSynthN n cfg'
          (sy :: rest.1, rest.2)
      | (_, _, _) => ([], cfg)

/-- Close a list of Synths sharing one Settings handle, in list order,
via `Synth.Close`; returns the closed synths and the final Settings. -/
def closeSynths : List Synth → Settings → List Synth × Settings
  | [], cfg => ([], cfg)
  | sy :: rest, cfg =>
      let r := Synth.Close sy cfg
      let rr := closeSynths rest r.2.2
      (r.2.1 :: rr.1, rr.2)

/-- Creating `n` Synths from an open Settings handle yields `n` open
synths holding the Settings reference, leaves the handle open with the
same pointer, and raises the dependency counter by exactly `n`. -/
theorem newSynthN_spec (n : Nat) :
    ∀ cfg : Settings, cfg.closed = false → cfg.ptr ≠ none →
      (newSynthN n cfg).2.closed = false ∧
      (newSynthN n cfg).2.ptr = cfg.ptr ∧
      (newSynthN n cfg).2.refCount = cfg.refCount + n ∧
      (newSynthN n cfg).1.length = n ∧
      (∀ sy ∈ (newSynthN n cfg).1, sy.closed = false ∧ sy.hasSettings = true) := by
  induction n with
  | zero => intro cfg hcl hptr; simp [newSynthN, hcl]
  | succ n ih =>
      intro cfg hcl hptr
      have hred : NewSynth (some cfg) (some n) =
          (.ok { ptr := some n, hasSettings := true, closed := false },
           some cfg.incRef, true) := by
        simp [NewSynth, hcl, hptr]
      have hstep : newSynthN (n + 1) cfg =
          ((⟨some n, true, false⟩ : Synth) :: (newSynthN n cfg.incRef).1,
           (newSynthN n cfg.incRef).2) := by
        simp [newSynthN, hred]
      obtain ⟨h1, h2, h3, h4, h5⟩ :=
        ih cfg.incRef (by simpa [Settings.incRef] using hcl)
          (by simpa [Settings.incRef] using hptr)
      rw [hstep]
      refine ⟨h1, by simpa [Settings.incRef] using h2, ?_, by simpa using h4, ?_⟩
      · rw [h3]
        simp [Settings.incRef]
        omega
      · intro sy hsy
        rcases List.mem_cons.mp hsy with h | h
        · subst h; exact ⟨rfl, rfl⟩
        · exact h5 sy h

/-- Closing a list of open reference-holding Synths, in any list order,
lowers the Settings dependency counter by the list length and leaves the
closed flag and pointer untouched. -/
theorem closeSynths_spec (l : List Synth) :
    ∀ cfg : Settings, (∀ sy ∈ l, sy.closed = false ∧ sy.hasSettings = true) →
      (closeSynths l cfg).2.refCount = cfg.refCount - l.length ∧
      (closeSynths l cfg).2.closed = cfg.closed ∧
      (closeSynths l cfg).2.ptr = cfg.ptr := by
  induction l with
  | nil => intro cfg _; simp [closeSynths]
  | cons sy rest ih =>
      intro cfg hall
      obtain ⟨hcl, hset⟩ := hall sy (List.mem_cons_self sy rest)
      have hone : Synth.Close sy cfg =
          (.ok (), { ptr := none, hasSettings := false, closed := true },
           cfg.decRef) := by
        simp [Synth.Close, hcl, hset]
      obtain ⟨h1, h2, h3⟩ := ih cfg.decRef
        (fun s hs => hall s (List.mem_cons_of_mem sy hs))
      have hskip : (closeSynths (sy :: rest) cfg).2 =
          (closeSynths rest cfg.decRef).2 := by
        simp [closeSynths, hone]
      refine ⟨?_, ?_, ?_⟩
      · rw [hskip, h1]
        simp only [Settings.decRef, List.length_cons]
        omega
      · rw [hskip, h2]
        simp [Settings.decRef]
      · rw [hskip, h3]
        simp [Settings.decRef]

/-- C2: starting from an open Settings handle with dependency counter 0,
creating `n` Synths raises the counter to exactly `n`; closing all of
them, in any order (any permutation of the created list), drives the
counter back to exactly 0; a subsequent Settings.Close then succeeds. -/
theorem refcount_returns_to_zero (cfg : Settings) (p : Nat) (n : Nat)
    (l : List Synth) (g : Global)
    (hcl : cfg.closed = false) (hptr : cfg.ptr = some p)
    (hc0 : cfg.refCount = 0) (hperm : l.Perm (newSynthN n cfg).1) :
    (newSynthN n cfg).2.refCount = n ∧
    (closeSynths l (newSynthN n cfg).2).2.refCount = 0 ∧
    (Settings.Close (closeSynths l (newSynthN n cfg).2).2 g).1 = .ok () := by
  have hptr' : cfg.ptr ≠ none := by rw [hptr]; simp
  obtain ⟨h1, h2, h3, h4, h5⟩ := newSynthN_spec n cfg hcl hptr'
  have hall : ∀ sy ∈ l, sy.closed = false ∧ sy.hasSettings = true :=
    fun sy hs => h5 sy (hperm.mem_iff.mp hs)
  obtain ⟨hc1, hc2, hc3⟩ := closeSynths_spec l (newSynthN n cfg).2 hall
  have hlen : l.length = n := by rw [hperm.length_eq, h4]
  have hcount : (newSynthN n cfg).2.refCount = n := by rw [h3, hc0]; omega
  have hfinal : (closeSynths l (newSynthN n cfg).2).2.refCount = 0 := by
    rw [hc1, hcount, hlen]; omega
  refine ⟨hcount, hfinal, ?_⟩
  have hclosed : (closeSynths l (newSynthN n cfg).2).2.closed = false := by
    rw [hc2, h1]
  simp [Settings.Close, hclosed, hfinal]

/-- Witness for C2: two synths created from a concrete open Settings and
closed in reversed order leave the counter at 0 and allow a final close. -/
theorem refcount_returns_to_zero_witness :
    (newSynthN 2 { ptr := some 9, closed := false, refCount := 0 }).2.refCount
        = 2 ∧
    (closeSynths
        ((newSynthN 2 { ptr := some 9, closed := false, refCount := 0 }).1.reverse)
        (newSynthN 2 { ptr := some 9, closed := false, refCount := 0 }).2).2.refCount
        = 0 ∧
    (Settings.Close
        (closeSynths
          ((newSynthN 2 { ptr := some 9, closed := false, refCount := 0 }).1.reverse)
          (newSynthN 2 { ptr := some 9, closed := false, refCount := 0 }).2).2
        { settingsRefCount := 1, settingNamesAlive := true }).1 = .ok () :=
  refcount_returns_to_zero { ptr := some 9, closed := false, refCount := 0 }
    9 2 _ { settingsRefCount := 1, settingNamesAlive := true }
    rfl rfl rfl (List.reverse_perm _)

/-- One concurrent creation attempt, reduced to its effect on the atomic
dependency counter.  `NewSynth` touches the counter through the single
atomic add in `incRef` (and not at all when it fails), so under
`sync/atomic` any concurrent execution of many creations is some
serialization of these per-creation steps. -/
inductive CreateStep where
  | success
  | failure
  deriving Repr, DecidableEq

/-- Run one serialization (schedule) of the atomic counter updates
performed by many concurrent creation attempts, from counter value `c`. -/
def runSched : List CreateStep → Int → Int
  | [], c => c
  | .success :: r, c => runSched r (c + 1)
  | .failure :: r, c => runSched r c

/-- The number of successful creations in a schedule. -/
def countSuccess : List CreateStep → Nat
  | [] => 0
  | .success :: r => countSuccess r + 1
  | .failure :: r => countSuccess r

/-- C9: each NewSynth performs exactly one atomic counter increment when
it succeeds and none when it fails, and every serialization of the atomic
updates of concurrently running creations ends with the counter raised by
exactly the number of successful creations — no interleaving corrupts
the dependency counter. -/
theorem concurrent_increments_exact :
    (∀ cfg alloc sy cfg' called,
        NewSynth (some cfg) alloc = (.ok sy, some cfg', called) →
        cfg'.refCount = cfg.refCount + 1) ∧
    (∀ cfg alloc e cfg' called,
        NewSynth (some cfg) alloc = (.error e, cfg', called) →
        cfg' = some cfg) ∧
    (∀ (sched : List CreateStep) (c : Int),
        runSched sched c = c + countSuccess sched) := by
  refine ⟨?_, ?_, ?_⟩
  · intro cfg alloc sy cfg' called h
    by_cases h1 : cfg.closed <;> by_cases h2 : cfg.ptr = none <;>
      cases alloc <;> simp [NewSynth, h1, h2] at h
    rw [← h.2.1]
    simp [Settings.incRef]
  · intro cfg alloc e cfg' called h
    by_cases h1 : cfg.closed <;> by_cases h2 : cfg.ptr = none <;>
      cases alloc <;> simp [NewSynth, h1, h2] at h <;> tauto
  · intro sched
    induction sched with
    | nil => intro c; simp [runSched, countSuccess]
    | cons step r ih =>
        intro c
        cases step
        · simp only [runSched, countSuccess, ih]
          push_cast
          ring
        · simp [runSched, countSuccess, ih]

/-- Witness for C9: a successful concrete creation raises the counter
from 0 to 1, and the schedule success-failure-success from 5 ends at
5 plus its success count. -/
theorem concurrent_increments_exact_witness :
    ({ ptr := some 1, closed := false, refCount := 1 } : Settings).refCount =
      ({ ptr := some 1, closed := false, refCount := 0 } : Settings).refCount + 1 ∧
    runSched [.success, .failure, .success] 5 =
      5 + countSuccess [.success, .failure, .success] :=
  ⟨concurrent_increments_exact.1
      { ptr := some 1, closed := false, refCount := 0 } (some 7)
      { ptr := some 7, hasSettings := true, closed := false }
      { ptr := some 1, closed := false, refCount := 1 } true rfl,
   concurrent_increments_exact.2.2 [.success, .failure, .success] 5⟩

end Fluidsynth2
